import Mathlib

/-!
Verification of the table-extraction pipeline of the data-extraction service.

The Lean definitions below are a shallow embedding of the Python source:

  * src/src/core/models.py          - DocumentTable, ExtractedData, Document
  * src/src/config/app_config.py    - ServiceConfig (its dataclass fields)
  * src/src/services/services.py    - ExtractionService (orchestrator)
  * src/src/adapters/parsers/base_parser.py          - BaseParser helpers
  * src/src/adapters/parsers/generic_text_parser.py  - GenericTextParser
  * src/src/adapters/parsers/html_parser.py          - HtmlParser
  * src/src/adapters/parsers/pdf_parser.py and docx_parser.py -
    the shared `_detect_column_types` / `_classify_table_type` /
    `_assess_table_quality` helper methods (their bodies are byte-identical
    in the two files).

Modelling conventions:
  * Python `str` is Lean `String`; byte strings are `List Nat`.
  * Python floats are modelled as rationals (`ℚ`); the float literals
    0.4, 0.6, 0.8 become the exact rationals 2/5, 3/5, 4/5.
  * Fallible Python code returns `Except PyExc _`; an uncaught Python
    exception is the `.error` constructor.
  * UTF-8 decoding with errors="ignore" is an external capability and is
    passed in as a function parameter `decode : List Nat → String`.
-/

/-- Python exceptions, as far as the orchestrator distinguishes them. -/
inductive PyExc : Type where
  | attributeError (msg : String)
  | nameError (msg : String)
  | other (msg : String)
deriving DecidableEq

/-- Python str(e) for an exception: its message. -/
def pyStr : PyExc → String
  | .attributeError m => m
  | .nameError m => m
  | .other m => m

/-! ### Python string primitives -/

/-- Python whitespace for str.strip() and the regex class backslash-s
(space, tab, newline, carriage return, vertical tab, form feed). -/
def pyIsSpace (c : Char) : Bool :=
  c = ' ' ∨ c = '\t' ∨ c = '\n' ∨ c = '\r' ∨ c = '\x0b' ∨ c = '\x0c'

/-- Python str.strip() on a character list. -/
def pyStripList (cs : List Char) : List Char :=
  ((cs.dropWhile pyIsSpace).reverse.dropWhile pyIsSpace).reverse

/-- Python str.strip(). -/
def pyStrip (s : String) : String := ⟨pyStripList s.toList⟩

/-- Python str.strip(chars) for a single strip character. -/
def pyStripChar (strip : Char) (s : String) : String :=
  ⟨((s.toList.dropWhile (· = strip)).reverse.dropWhile (· = strip)).reverse⟩

/-- Python str.lower() (ASCII inputs). -/
def pyLower (s : String) : String := ⟨s.toList.map Char.toLower⟩

/-- Number of occurrences of a character, Python str.count(c). -/
def countChar (s : String) (c : Char) : Nat := s.toList.countP (· = c)

/-- Substring containment needle-in-haystack over lists. -/
def containsSubList [DecidableEq α] (needle : List α) : List α → Bool
  | [] => needle.isEmpty
  | a :: rest => needle.isPrefixOf (a :: rest) || containsSubList needle rest

/-- Python `needle in hay` for strings. -/
def containsSub (hay needle : String) : Bool :=
  containsSubList needle.toList hay.toList

/-- Python str.split(sep) for a one-character separator (keeps empty parts). -/
def splitOnCharAux (sep : Char) : List Char → List Char → List String
  | [], acc => [⟨acc.reverse⟩]
  | c :: rest, acc =>
      if c = sep then ⟨acc.reverse⟩ :: splitOnCharAux sep rest []
      else splitOnCharAux sep rest (c :: acc)

/-- Python str.split(sep) for a one-character separator. -/
def pySplitChar (s : String) (sep : Char) : List String :=
  splitOnCharAux sep s.toList []

/-- Python str.split() with no argument: split on whitespace runs,
dropping empty fields.  Implemented as a left fold. -/
def pyWhitespaceSplit (s : String) : List String :=
  let step := fun (st : List (List Char) × List Char) (c : Char) =>
    if pyIsSpace c then
      (if st.2.isEmpty then st else (st.2.reverse :: st.1, []))
    else (st.1, c :: st.2)
  let r := s.toList.foldl step ([], [])
  ((if r.2.isEmpty then r.1 else r.2.reverse :: r.1).reverse).map (⟨·⟩)

/-- re.search of three-or-more consecutive whitespace characters. -/
def hasRun3 (s : String) : Bool :=
  (s.toList.foldl
    (fun (st : Bool × Nat) c =>
      if pyIsSpace c then (st.1 || 3 ≤ st.2 + 1, st.2 + 1) else (st.1, 0))
    (false, 0)).1

/-- re.split on runs of three or more whitespace characters.
State: (finished parts, current part, pending whitespace run). -/
def splitRun3 (s : String) : List String :=
  let step := fun (st : List (List Char) × List Char × List Char) (c : Char) =>
    if pyIsSpace c then (st.1, st.2.1, st.2.2 ++ [c])
    else if 3 ≤ st.2.2.length then (st.1 ++ [st.2.1], [c], [])
    else (st.1, st.2.1 ++ st.2.2 ++ [c], [])
  let r := s.toList.foldl step ([], [], [])
  let parts := if 3 ≤ r.2.2.length then r.1 ++ [r.2.1, []] else r.1 ++ [r.2.1 ++ r.2.2]
  parts.map (⟨·⟩)

/-- Python str.isdigit() (ASCII inputs): non-empty and all digits. -/
def pyIsDigitStr (s : String) : Bool :=
  ¬ s.toList.isEmpty && s.toList.all Char.isDigit

/-- Python " ".join / sep.join. -/
def pyJoin (sep : String) (parts : List String) : String :=
  String.intercalate sep parts

/-- Last index of a character, Python str.rfind: -1 when absent. -/
def pyRfind (s : String) (c : Char) : Int :=
  (s.toList.foldl
    (fun (st : Int × Int) ch => (st.1 + 1, if ch = c then st.1 else st.2))
    (0, -1)).2

/-- os.path.splitext (POSIX): split off the extension at the last dot of
the basename, unless the basename up to that dot is all dots. -/
def pySplitExt (p : String) : String × String :=
  let cs := p.toList
  let sepIdx := pyRfind p '/'
  let dotIdx := pyRfind p '.'
  if sepIdx < dotIdx ∧
      (((cs.drop (sepIdx + 1).toNat).take (dotIdx - sepIdx - 1).toNat).any (· ≠ '.')) then
    (⟨cs.take dotIdx.toNat⟩, ⟨cs.drop dotIdx.toNat⟩)
  else (p, "")

/-! ### Data model (src/src/core/models.py) -/

/-- DocumentTable (pydantic model, models.py lines 6-49); only the fields the
orchestrator and the parsers in scope touch are carried.  Defaults mirror the
pydantic field defaults. -/
structure DocumentTable : Type where
  table_index : Nat
  page_number : Option Nat := none
  title : Option String := none
  context_before : Option String := none
  context_after : Option String := none
  headers : Option (List String) := none
  rows : List (List String)
  row_count : Nat
  column_count : Nat
  column_types : Option (List String) := none
  data_quality_score : Option ℚ := none
  table_text : Option String := none
  table_type : Option String := none
  confidence_score : Option ℚ := none
  extraction_method : Option String := none
  processing_time_ms : Option Nat := none
  is_truncated : Option Bool := some false
  original_row_count : Option Nat := none
  stored_row_count : Option Nat := none
  truncation_reason : Option String := none
deriving DecidableEq

/-- The plain dictionary the orchestrator builds per kept table
(services.py lines 75-93). -/
structure TableDict : Type where
  table_index : Nat
  headers : Option (List String)
  rows : List (List String)
  row_count : Nat
  column_count : Nat
  page_number : Option Nat
  title : Option String
  context_before : Option String
  context_after : Option String
  table_type : Option String
  confidence_score : Option ℚ
  extraction_method : Option String
  is_truncated : Option Bool
  original_row_count : Option Nat
  stored_row_count : Option Nat
  truncation_reason : Option String
deriving DecidableEq

/-- ExtractedData (models.py lines 51-63).  The dynamically injected
`_raw_tables` attribute (services.py line 121) is modelled as the
`raw_tables` field, always present (empty when unset). -/
structure ExtractedData : Type where
  full_text : String
  page_count : Nat := 1
  has_ocr_content : Bool := false
  processing_method : Option String := none
  tables : List DocumentTable := []
  table_count : Nat := 0
  id : Option Nat := none
  filename : Option String := none
  raw_tables : List TableDict := []
deriving DecidableEq

/-- Document (models.py lines 65-68); content is the raw byte string. -/
structure Document : Type where
  content : List Nat
  filename : String

/-! ### Configuration (src/src/config/app_config.py) -/

/-- Field names of the ServiceConfig dataclass (app_config.py lines 61-77).
There is no field named large_file. -/
def serviceConfigFields : List String :=
  ["app", "database", "ocr", "table_extraction"]

/-- Evaluation of the Python expression config.large_file.max_storage_rows on
the shipped global ServiceConfig instance (app_config.py line 80): since
large_file is not among the dataclass fields and is never assigned anywhere,
the attribute lookup raises AttributeError. -/
def configLargeFileMaxStorageRows : Except PyExc Nat :=
  if serviceConfigFields.contains "large_file" then .ok 0
  else .error (.attributeError "ServiceConfig object has no attribute large_file")

/-- Modelled from the spec: section 6 requires an externally configured
integer storage row ceiling (what the code intends to read as
config.large_file.max_storage_rows, a configuration section missing from
ServiceConfig).  This models that configuration read succeeding with
ceiling n. -/
def specStorageRowCeiling (n : Nat) : Except PyExc Nat := .ok n

/-! ### Orchestrator (src/src/services/services.py, class ExtractionService) -/

/-- Result dictionary of IDocumentRepository.save_extracted_data
(services.py lines 124-126 read keys id and action). -/
structure SaveResult : Type where
  id : Nat
  action : String

/-- The IDocumentParser surface the orchestrator uses.  Each method may
raise (services.py wraps everything in try/except). -/
structure PyParser : Type where
  parse : List Nat → Except PyExc (String × Bool × String)
  count_pages : List Nat → Except PyExc Nat
  extract_tables : List Nat → Except PyExc (List DocumentTable)

/-- The repository surface the orchestrator uses. -/
structure PyRepo : Type where
  save_extracted_data : Document → ExtractedData → Except PyExc SaveResult

/-- services.py lines 181-200: per-table body of _limit_table_sizes.
The Python code round-trips the table through table.dict() and
DocumentTable(**table_dict); both preserve all fields, so this is a field
update.  Note the rows list is cut to max_rows but the row_count field is
left untouched.  (The except branch around DocumentTable(**table_dict) is
unreachable: the kwargs come from .dict() of an already valid model.) -/
def limit_one_table (max_rows : Nat) (t : DocumentTable) : DocumentTable :=
  if max_rows < t.rows.length then
    { t with
      rows := t.rows.take max_rows
      is_truncated := some true
      original_row_count := some t.rows.length
      stored_row_count := some (t.rows.take max_rows).length
      truncation_reason := some "Large table truncated to prevent browser crashes" }
  else
    { t with
      is_truncated := some false
      original_row_count := some t.rows.length
      stored_row_count := some t.rows.length }

/-- services.py lines 168-211, _limit_table_sizes.  maxRowsAttr is the
evaluation of config.large_file.max_storage_rows (line 179), which is read
only when the table list is non-empty (the early return at lines 175-176
comes first). -/
def limit_table_sizes (maxRowsAttr : Except PyExc Nat)
    (tables : List DocumentTable) : Except PyExc (List DocumentTable) :=
  if tables.isEmpty then .ok tables
  else
    match maxRowsAttr with
    | .error e => .error e
    | .ok max_rows => .ok (tables.map (limit_one_table max_rows))

/-- services.py lines 75-93: the dictionary built for one kept table.
Every getattr(table, field, default) hits an existing pydantic field, so it
reads the field value. -/
def to_table_dict (t : DocumentTable) : TableDict :=
  { table_index := t.table_index
    headers := t.headers
    rows := t.rows
    row_count := t.row_count
    column_count := t.column_count
    page_number := t.page_number
    title := t.title
    context_before := t.context_before
    context_after := t.context_after
    table_type := t.table_type
    confidence_score := t.confidence_score
    extraction_method := t.extraction_method
    is_truncated := t.is_truncated
    original_row_count := t.original_row_count
    stored_row_count := t.stored_row_count
    truncation_reason := t.truncation_reason }

/-- services.py lines 71-96: keep only tables with positive row and column
counts, converting each kept table to its dictionary form. -/
def build_table_dicts (tables : List DocumentTable) : List TableDict :=
  (tables.filter (fun t => 0 < t.row_count && 0 < t.column_count)).map to_table_dict

/-- services.py lines 61-105 (the inner try): raw table extraction, size
limiting and dictionary conversion; any exception in the block yields the
empty table list (lines 103-105). -/
def tables_stage (maxRowsAttr : Except PyExc Nat)
    (raw : Except PyExc (List DocumentTable)) : List TableDict :=
  match raw with
  | .error _ => []
  | .ok ts =>
    match limit_table_sizes maxRowsAttr ts with
    | .error _ => []
    | .ok lim => build_table_dicts lim

/-- services.py lines 151-166, _sanitize_text_for_database. -/
def sanitize_text_for_database (text : String) : String :=
  if text.isEmpty then ""
  else
    let s := text.toList.filter (· ≠ '\x00')
    if 512 * 1024 < s.length then (⟨s.take (512 * 1024)⟩ : String) ++ "\n[Text truncated]"
    else ⟨s⟩

/-- services.py lines 213-245, _detect_file_type.  Byte signatures:
percent-P-D-F, PK 3 4 with "word/" in the first 1000 bytes, brace or
bracket followed by newline, and a lone opening angle bracket. -/
def detect_file_type (filename : String) (content : List Nat) : String :=
  let fl := pyLower filename
  if ["readme", "license", "changelog", "authors", "contributors", "makefile",
      "dockerfile"].contains fl then "." ++ fl
  else if [37, 80, 68, 70].isPrefixOf content then ".pdf"
  else if [80, 75, 3, 4].isPrefixOf content &&
      containsSubList [119, 111, 114, 100, 47] (content.take 1000) then ".docx"
  else if [123, 10].isPrefixOf content || [91, 10].isPrefixOf content then ".json"
  else if [60].isPrefixOf content then ".xml"
  else ""

/-- services.py lines 42-47: lower-cased extension from os.path.splitext,
falling back to content sniffing when empty. -/
def resolve_ext (doc : Document) : String :=
  let ext := pyLower (pySplitExt doc.filename).2
  if ext.isEmpty then detect_file_type doc.filename doc.content else ext

/-- services.py line 63: extensions for which table extraction runs. -/
def supported_table_exts : List String := [".pdf", ".docx", ".doc", ".html", ".htm"]

/-- services.py lines 24-35, _get_parser: the parser map, or the generic
text parser for unknown extensions.  The fallback GenericTextParser is
supplied by the caller (it needs the decode capability). -/
def chooseParser (fallback : PyParser) (parser_map : String → Option PyParser)
    (ext : String) : PyParser :=
  (parser_map ext).getD fallback

/-- services.py lines 57-121: the ExtractedData value assembled before the
repository save.  Note line 116 stores tables := [] on the model and keeps
the dictionaries only on the injected raw_tables attribute; table_count is
the number of kept dictionaries. -/
def pre_save_data (maxRowsAttr : Except PyExc Nat) (parser : PyParser)
    (doc : Document) (ext : String) (full_text : String) (used_ocr : Bool)
    (method : String) (page_count : Nat) : ExtractedData :=
  let tables : List TableDict :=
    if supported_table_exts.contains ext ∧ doc.content.length < 10 * 1024 * 1024
    then tables_stage maxRowsAttr (parser.extract_tables doc.content)
    else []
  { full_text := sanitize_text_for_database full_text
    page_count := page_count
    has_ocr_content := used_ocr
    processing_method := some method
    tables := []
    table_count := tables.length
    raw_tables := tables }

/-- services.py lines 49-136: the body of the outer try of
extract_from_document. -/
def extract_core (maxRowsAttr : Except PyExc Nat) (fallback : PyParser)
    (parser_map : String → Option PyParser) (repo : PyRepo) (doc : Document) :
    Except PyExc ExtractedData :=
  let ext := resolve_ext doc
  let parser := chooseParser fallback parser_map ext
  match parser.parse doc.content with
  | .error e => .error e
  | .ok (full_text, used_ocr, method) =>
    match parser.count_pages doc.content with
    | .error e => .error e
    | .ok page_count =>
      let data := pre_save_data maxRowsAttr parser doc ext full_text used_ocr
        method page_count
      match repo.save_extracted_data doc data with
      | .error e => .error e
      | .ok save_result =>
          .ok { data with id := some save_result.id, filename := some doc.filename }

/-- services.py lines 142-149: the degraded result built by the outer
exception handler. -/
def error_result (e : PyExc) : ExtractedData :=
  { full_text := "Error processing document: " ++ pyStr e
    page_count := 1
    has_ocr_content := false
    processing_method := some "error"
    tables := []
    table_count := 0
    raw_tables := [] }

/-- services.py lines 37-149, extract_from_document: run the pipeline,
catching any exception into the degraded error result. -/
def extract_from_document (maxRowsAttr : Except PyExc Nat) (fallback : PyParser)
    (parser_map : String → Option PyParser) (repo : PyRepo) (doc : Document) :
    ExtractedData :=
  match extract_core maxRowsAttr fallback parser_map repo doc with
  | .ok r => r
  | .error e => error_result e

/-! ### BaseParser (src/src/adapters/parsers/base_parser.py) -/

/-- base_parser.py lines 96-112, _create_table_text: pipe-joined searchable
text, header line first when headers are present. -/
def create_table_text (headers : Option (List String)) (rows : List (List String)) :
    String :=
  let headPart :=
    match headers with
    | some hs => if hs.isEmpty then "" else pyJoin " | " hs ++ "\n"
    | none => ""
  headPart ++ String.join (rows.map (fun row => pyJoin " | " row ++ "\n"))

/-- base_parser.py lines 114-131, _validate_content: non-empty and at least
10 bytes. -/
def validate_content (content : List Nat) : Bool :=
  ¬ content.isEmpty && 10 ≤ content.length

/-! ### GenericTextParser (src/src/adapters/parsers/generic_text_parser.py) -/

namespace GenericText

/-- generic_text_parser.py lines 194-230, _is_table_row. -/
def is_table_row (line : String) : Bool :=
  if line.isEmpty || line.length < 3 then false
  else if containsSub line "|" && 2 ≤ countChar line '|' then true
  else if containsSub line "\t" && 1 ≤ countChar line '\t' then true
  else if 3 ≤ (pyWhitespaceSplit line).length && hasRun3 line then true
  else if ¬ line.isEmpty && containsSub line "---" &&
      (pyStrip line).toList.all (fun c => c = '|' || c = '-' || c = '+' || c = ' ')
    then true
  else if containsSub line "," && 2 ≤ countChar line ',' then
    let parts := pySplitChar line ','
    3 ≤ parts.length && (parts.take 3).all (fun part => 0 < (pyStrip part).length)
  else false

/-- generic_text_parser.py lines 307-331, _filter_separator_lines. -/
def filter_separator_lines (table_lines : List String) : List String :=
  table_lines.foldr
    (fun raw acc =>
      let line := pyStrip raw
      if containsSub line "---" &&
          (pyStrip line).toList.all (fun c => c = '|' || c = '-' || c = '+' || c = ' ')
        then acc
      else if line.isEmpty then acc
      else line :: acc)
    []

/-- Separator kinds of _determine_separator_type. -/
inductive SepKind : Type where
  | pipe | tab | comma | space
deriving DecidableEq

/-- generic_text_parser.py lines 333-353, _determine_separator_type. -/
def determine_separator_type (line : String) : Option SepKind :=
  if containsSub line "|" && 2 ≤ countChar line '|' then some .pipe
  else if containsSub line "\t" then some .tab
  else if containsSub line "," && 2 ≤ countChar line ',' then some .comma
  else if hasRun3 line then some .space
  else none

/-- Cell splitting for one line (lines 368-381). -/
def split_cells (sep : SepKind) (line : String) : List String :=
  match sep with
  | .pipe => (pySplitChar (pyStripChar '|' (pyStrip line)) '|').map pyStrip
  | .tab => (pySplitChar line '\t').map pyStrip
  | .comma => (pySplitChar line ',').map pyStrip
  | .space => (splitRun3 (pyStrip line)).map pyStrip

/-- generic_text_parser.py lines 355-399, _parse_rows_by_separator: split
each line, keep rows with some non-blank cell, pad or cut to the column
count of the first kept row. -/
def parse_rows_by_separator (data_lines : List String) (sep : SepKind) :
    List (List String) :=
  data_lines.foldl
    (fun rows line =>
      let cells := split_cells sep line
      if ¬ cells.isEmpty && cells.any (fun cell => ¬ (pyStrip cell).isEmpty) then
        match rows.head? with
        | none => rows ++ [cells]
        | some first =>
            if cells.length = first.length then rows ++ [cells]
            else if cells.length < first.length then
              rows ++ [cells ++ List.replicate (first.length - cells.length) ""]
            else rows ++ [cells.take first.length]
      else rows)
    []

/-- Header indicator score of one first-row cell (lines 420-434), in half
units (the float score doubled, so +1 becomes 2 and +0.5 becomes 1): +1
when the cell with percent, dollar, comma and dot removed is not purely
digits, +0.5 when shorter than 50 characters, +1 when it contains a
descriptive keyword; an all-whitespace cell is skipped entirely. -/
def header_cell_score2 (cell : String) : Nat :=
  if (pyStrip cell).isEmpty then 0
  else
    (if ¬ pyIsDigitStr ⟨cell.toList.filter
        (fun c => c ≠ '%' && c ≠ '$' && c ≠ ',' && c ≠ '.')⟩ then 2 else 0) +
    (if cell.length < 50 then 1 else 0) +
    (if ["name", "type", "date", "amount", "total", "count"].any
        (fun w => containsSub (pyLower cell) w) then 2 else 0)

/-- generic_text_parser.py lines 401-440, _separate_headers_and_data.  The
float comparison header_indicators at-least count-times-0.6 is modelled
exactly: with scores in half units it is 6 times the count at most 5 times
the doubled score. -/
def separate_headers_and_data (rows : List (List String)) :
    Option (List String) × List (List String) :=
  if rows.length ≤ 1 then (none, rows)
  else
    match rows with
    | [] => (none, rows)
    | first :: rest =>
        let indicators2 := (first.map header_cell_score2).sum
        let nonEmptyCells := (first.filter (fun c => ¬ (pyStrip c).isEmpty)).length
        if 6 * nonEmptyCells ≤ 5 * indicators2 then (some first, rest)
        else (none, rows)

/-- generic_text_parser.py lines 442-476, _validate_table_structure. -/
def validate_table_structure (headers : Option (List String))
    (data_rows : List (List String)) : Bool :=
  if data_rows.isEmpty && (match headers with | none => true | some hs => hs.isEmpty)
    then false
  else
    let consistent :=
      match data_rows with
      | [] => true
      | first :: rest => rest.all (fun row => row.length = first.length)
    let headersMatch :=
      match headers, data_rows with
      | some hs, first :: _ => hs.isEmpty || hs.length = first.length
      | _, _ => true
    let content :=
      if data_rows.isEmpty then true
      else
        let nonEmpty := (data_rows.map (fun row =>
          (row.filter (fun c => ¬ (pyStrip c).isEmpty)).length)).sum
        let total := (data_rows.map List.length).sum
        -- the float comparison nonEmpty/total < 0.3, exactly, for total > 0
        if 0 < total then ¬ (10 * nonEmpty < 3 * total) else true
    consistent && headersMatch && content

/-- generic_text_parser.py lines 232-305, _parse_generic_table.  At line 273
the code calls self._create_table_html, a method defined neither on
GenericTextParser nor on BaseParser (the same holds for
_create_table_markdown, _create_table_csv, _detect_table_type,
_detect_column_types and _assess_data_quality), so Python raises
AttributeError there; the except handler at lines 301-305 then evaluates the
name logger, which is not defined in the module, raising NameError out of
the method. -/
def parse_generic_table_body (table_lines : List String) :
    Except PyExc (Option DocumentTable) :=
  let data_lines := filter_separator_lines table_lines
  if data_lines.isEmpty then .ok none
  else
    match determine_separator_type (data_lines.headD "") with
    | none => .ok none
    | some sep =>
        let rows := parse_rows_by_separator data_lines sep
        if rows.length < 1 then .ok none
        else
          let hd := separate_headers_and_data rows
          if ¬ validate_table_structure hd.1 hd.2 then .ok none
          else
            let _table_text := create_table_text hd.1 hd.2
            .error (.attributeError
              "GenericTextParser object has no attribute _create_table_html")

/-- generic_text_parser.py lines 232-305, _parse_generic_table: the early
empty check, the try body above, and the except handler. -/
def parse_generic_table (table_lines : List String) (_table_index : Nat) :
    Except PyExc (Option DocumentTable) :=
  if table_lines.isEmpty then .ok none
  else
    match parse_generic_table_body table_lines with
    | .ok v => .ok v
    | .error e =>
        if ¬ containsSub (pyLower (pyStr e)) "escapechar" then
          .error (.nameError "name logger is not defined")
        else .ok none

/-- Loop state of extract_tables (lines 155-186): accumulated tables, lines
of the current candidate block, next table index, inside-a-block flag. -/
def extract_loop (lines : List String) (tables : List DocumentTable)
    (table_lines : List String) (table_index : Nat) (in_table : Bool) :
    Except PyExc (List DocumentTable) :=
  match lines with
  | [] =>
      if in_table && 2 ≤ table_lines.length then
        match parse_generic_table table_lines table_index with
        | .error e => .error e
        | .ok (some t) => .ok (tables ++ [t])
        | .ok none => .ok tables
      else .ok tables
  | line :: rest =>
      let stripped := pyStrip line
      if is_table_row stripped then
        extract_loop rest tables (table_lines ++ [pyStrip line]) table_index true
      else
        if in_table && 2 ≤ table_lines.length then
          match parse_generic_table table_lines table_index with
          | .error e => .error e
          | .ok (some t) => extract_loop rest (tables ++ [t]) [] (table_index + 1) false
          | .ok none => extract_loop rest tables [] table_index false
        else extract_loop rest tables [] table_index false

/-- generic_text_parser.py lines 132-192, extract_tables: decode, walk the
lines grouping contiguous table-shaped lines, parse each block; the outer
except returns the empty list on any exception. -/
def extract_tables (decode : List Nat → String) (content : List Nat) :
    List DocumentTable :=
  if ¬ validate_content content then []
  else
    match extract_loop (pySplitChar (decode content) '\n') [] [] 0 false with
    | .ok tables => tables
    | .error _ => []

/-- generic_text_parser.py lines 38-65, parse: the encoding-selection chain
is folded into the decode capability; it never raises, never uses OCR and
always reports method text_extraction. -/
def parse (decode : List Nat → String) (content : List Nat) :
    Except PyExc (String × Bool × String) :=
  if ¬ validate_content content then .ok ("Error: Invalid content", false, "text_extraction")
  else .ok (decode content, false, "text_extraction")

/-- generic_text_parser.py lines 99-130, count_pages. -/
def count_pages (decode : List Nat → String) (content : List Nat) :
    Except PyExc Nat :=
  if ¬ validate_content content then .ok 0
  else
    let text := decode content
    let lines := countChar text '\n' + 1
    -- 80 < len(text)/lines as floats is exactly 80*lines < len(text)
    .ok (if lines < 50 then 1
      else if lines < 200 then max 1 (lines / 50)
      else if 80 * lines < text.length then max 1 (lines / 40)
      else max 1 (lines / 60))

/-- The GenericTextParser as a PyParser value (the _get_parser fallback). -/
def asParser (decode : List Nat → String) : PyParser :=
  { parse := parse decode
    count_pages := count_pages decode
    extract_tables := fun content => .ok (extract_tables decode content) }

end GenericText

/-! ### HtmlParser (src/src/adapters/parsers/html_parser.py) -/

namespace Html

/-- A cell of an HTML table row: its tag and its text content
(BeautifulSoup get_text of the element). -/
inductive CellTag : Type where
  | th | td
deriving DecidableEq

/-- One HTML tr element: its th/td children in document order. -/
structure HtmlCell : Type where
  tag : CellTag
  text : String
deriving DecidableEq

/-- Collapse whitespace runs to single spaces, re.sub of the regex class
backslash-s one-or-more (applied to stripped text, so there is no leading
or trailing run). -/
def collapseWs (cs : List Char) : List Char :=
  (cs.foldl
    (fun (st : List Char × Bool) c =>
      if pyIsSpace c then (st.1, true)
      else (c :: (if st.2 then ' ' :: st.1 else st.1), false))
    ([], false)).1.reverse

/-- html_parser.py lines 228-247, _clean_cell_text. -/
def clean_cell_text (text : String) : String :=
  if text.isEmpty then ""
  else
    let cleaned : List Char := collapseWs (pyStripList text.toList)
    ⟨cleaned.map (fun c => if c = '\n' || c = '\r' then ' ' else c)⟩

/-- html_parser.py lines 287-310, _classify_table_type: a keyword if/elif
chain over the lower-cased space-joined header text. -/
def classify_table_type (headers : List String) (_rows : List (List String)) :
    String :=
  let header_text := pyLower (pyJoin " " headers)
  if ["status", "done", "completed", "pending"].any (containsSub header_text) then
    "status"
  else if ["item", "feature", "task", "requirement"].any (containsSub header_text) then
    "requirements"
  else if ["name", "person", "author", "assignee"].any (containsSub header_text) then
    "assignments"
  else if ["date", "time", "deadline", "due"].any (containsSub header_text) then
    "schedule"
  else "data"

/-- html_parser.py lines 151-226, _extract_table_data, over the tr elements
of one table element.  find_all of th filters the th cells; find_all of
td-or-th yields all cells in document order.  The surrounding-document
context (_get_table_context) is passed in as the triple
(title, before, after). -/
def extract_table_data (context : String × String × String)
    (trs : List (List HtmlCell)) (table_idx : Nat) : Option DocumentTable :=
  match trs with
  | [] => none
  | first_row :: rest =>
      let th_elements := first_row.filter (fun c => c.tag = .th)
      let hd : List String × List (List HtmlCell) :=
        if ¬ th_elements.isEmpty then
          (th_elements.map (fun c => clean_cell_text c.text), rest)
        else if ¬ first_row.isEmpty then
          (first_row.map (fun c => clean_cell_text c.text), rest)
        else
          ([], trs)
      let headers := hd.1
      let table_rows := hd.2.foldr
        (fun row acc =>
          if ¬ row.isEmpty then
            let row_data := row.map (fun c => clean_cell_text c.text)
            ((row_data ++ List.replicate (headers.length - row_data.length) "").take
              headers.length) :: acc
          else acc)
        []
      if table_rows.isEmpty || headers.isEmpty then none
      else
        some
          { table_index := table_idx
            headers := some headers
            rows := table_rows
            row_count := table_rows.length
            column_count := headers.length
            title := some context.1
            context_before := some context.2.1
            context_after := some context.2.2
            table_type := some (classify_table_type headers table_rows)
            confidence_score := some ((95 : ℚ) / 100)
            extraction_method := some "html_parser" }

end Html

/-! ### Shared table-analysis helpers of PdfParser and DocxParser
(identical method bodies: pdf_parser.py lines 800-881 and docx_parser.py
lines 528-609). -/

namespace TableAnalysis

/-- The slash date pattern: one-or-two digits, slash, one-or-two digits,
slash, two-to-four digits, found anywhere in the value (re.search). -/
def digitRun (lo hi : Nat) (k : List Char → Bool) (cs : List Char) : Bool :=
  (List.range (hi + 1)).any (fun n =>
    lo ≤ n && n ≤ cs.length && (cs.take n).all Char.isDigit && k (cs.drop n))

/-- Numeric date shape a-sep-b-sep-c with a,b one-or-two digits and c
two-to-four digits, anchored at the start of the list. -/
def dateShapeAt (sep : Char) (cs : List Char) : Bool :=
  digitRun 1 2 (fun r1 =>
    match r1 with
    | c :: r2 => c = sep && digitRun 1 2 (fun r3 =>
        match r3 with
        | c2 :: r4 => c2 = sep && digitRun 2 4 (fun _ => true) r4
        | [] => false) r2
    | [] => false) cs

/-- Year-first shape: exactly four digits, sep, one-or-two digits, sep,
one-or-two digits, anchored at the start of the list. -/
def yearFirstShapeAt (sep : Char) (cs : List Char) : Bool :=
  digitRun 4 4 (fun r1 =>
    match r1 with
    | c :: r2 => c = sep && digitRun 1 2 (fun r3 =>
        match r3 with
        | c2 :: r4 => c2 = sep && digitRun 1 2 (fun _ => true) r4
        | [] => false) r2
    | [] => false) cs

/-- re.search of an anchored shape: true when it matches at some suffix. -/
def searchShape (shape : List Char → Bool) (cs : List Char) : Bool :=
  match cs with
  | [] => shape []
  | _ :: rest => shape cs || searchShape shape rest

/-- pdf_parser.py lines 835-845 and docx_parser.py lines 563-573,
_is_date_pattern: numeric day-month-year shapes with slash or dash, the
year-first dash shape, or a month name (case-insensitive substring). -/
def is_date_pattern (value : String) : Bool :=
  let cs := value.toList
  searchShape (dateShapeAt '/') cs ||
  searchShape (dateShapeAt '-') cs ||
  searchShape (yearFirstShapeAt '-') cs ||
  (["jan", "feb", "mar", "apr", "may", "jun", "jul", "aug", "sep", "oct",
    "nov", "dec"].any (containsSub (pyLower value))) ||
  (["january", "february", "march", "april", "may", "june", "july", "august",
    "september", "october", "november", "december"].any (containsSub (pyLower value)))

/-- Currency test: the value contains a dollar, euro, pound or yen sign. -/
def hasCurrencySymbol (value : String) : Bool :=
  ['$', '€', '£', '¥'].any (fun sym => value.toList.contains sym)

/-- Percentage test: the value contains a percent sign. -/
def hasPercentSign (value : String) : Bool := value.toList.contains '%'

/-- Numeric test, re.match of anchored digits-commas-dots-dashes applied to
the value with dollar signs and commas removed: non-empty and every
character a digit, comma, dot or dash. -/
def isNumericValue (value : String) : Bool :=
  let s := value.toList.filter (fun c => c ≠ '$' && c ≠ ',')
  ¬ s.isEmpty && s.all (fun c => c.isDigit || c = ',' || c = '.' || c = '-')

/-- The non-blank values of column col_idx: each row contributes its cell
at col_idx, or the empty string when the row is shorter (lines 808-809). -/
def column_values (rows : List (List String)) (col_idx : Nat) : List String :=
  (rows.map (fun row => row.getD col_idx "")).filter
    (fun val => ¬ (pyStrip val).isEmpty)

/-- pdf_parser.py lines 800-833 and docx_parser.py lines 528-561,
_detect_column_types: float count ratios against the 0.6 threshold in the
order currency, percentage, date, numeric. -/
def detect_column_types (rows : List (List String)) (headers : List String) :
    List String :=
  if rows.isEmpty then headers.map (fun _ => "text")
  else
    (List.range headers.length).map (fun col_idx =>
      let vals := column_values rows col_idx
      if vals.isEmpty then "text"
      else
        -- count/total at least 0.6 as floats is exactly 3*total at most
        -- 5*count (total is positive here)
        let total := vals.length
        if 3 * total ≤ 5 * vals.countP hasCurrencySymbol then "currency"
        else if 3 * total ≤ 5 * vals.countP hasPercentSign then "percentage"
        else if 3 * total ≤ 5 * vals.countP is_date_pattern then "date"
        else if 3 * total ≤ 5 * vals.countP isNumericValue then "numeric"
        else "text")

/-- The six classification categories with their keyword lists, in the
fixed dictionary insertion order of the source (pdf_parser.py lines
851-858, docx_parser.py lines 579-586). -/
def classificationCategories : List (String × List String) :=
  [("financial", ["amount", "cost", "price", "revenue", "profit", "budget",
      "expense", "$"]),
   ("contact", ["name", "email", "phone", "address", "contact", "person"]),
   ("statistics", ["count", "average", "percentage", "rate", "metric", "total"]),
   ("schedule", ["date", "time", "day", "month", "year", "schedule", "calendar"]),
   ("inventory", ["quantity", "stock", "item", "product", "inventory"]),
   ("performance", ["score", "rating", "performance", "result", "achievement"])]

/-- Python max(scores, key=scores.get) over the dict in insertion order:
the first entry whose value no later entry strictly exceeds. -/
def pyMaxBySnd (x : String × Nat) (xs : List (String × Nat)) : String × Nat :=
  xs.foldl (fun best q => if best.2 < q.2 then q else best) x

/-- pdf_parser.py lines 847-866 and docx_parser.py lines 575-594,
_classify_table_type: count keyword hits per category over the lower-cased
space-joined header text, keep positive scores, return the max-scoring
category (first on ties) or data. -/
def classify_table_type (headers : List String) (_rows : List (List String)) :
    String :=
  let header_text := pyLower (pyJoin " " headers)
  let scores := (classificationCategories.map
      (fun p => (p.1, p.2.countP (fun kw => containsSub header_text kw)))).filter
    (fun p => 0 < p.2)
  match scores with
  | [] => "data"
  | x :: xs => (pyMaxBySnd x xs).1

/-- pdf_parser.py lines 868-881 and docx_parser.py lines 596-609,
_assess_table_quality, in exact rational arithmetic. -/
def assess_table_quality (table_data : List (List String)) : ℚ :=
  if table_data.isEmpty then 0
  else
    let total := (table_data.map List.length).sum
    let empty := (table_data.map (fun row =>
      row.countP (fun cell => (pyStrip cell).isEmpty))).sum
    let malformed := (table_data.map (fun row =>
      row.countP (fun cell => 200 < cell.length || cell.toList.contains '\n'))).sum
    let empty_ratio : ℚ := if 0 < total then (empty : ℚ) / (total : ℚ) else 0
    let malformed_ratio : ℚ := if 0 < total then (malformed : ℚ) / (total : ℚ) else 0
    max 0 (min 1 (1 - (empty_ratio * ((2 : ℚ) / 5) + malformed_ratio * ((4 : ℚ) / 5))))

end TableAnalysis

/-! ### Decidable equality for Except results -/

/-- Sum encoding of Except, for decidable equality. -/
def exceptToSum : Except ε α → ε ⊕ α
  | .error e => .inl e
  | .ok a => .inr a

theorem exceptToSum_inj {ε α : Type} (x y : Except ε α)
    (h : exceptToSum x = exceptToSum y) : x = y := by
  cases x <;> cases y <;> simp [exceptToSum] at h <;> simp [h]

instance {ε α : Type} [DecidableEq ε] [DecidableEq α] : DecidableEq (Except ε α) :=
  fun x y =>
    decidable_of_iff (exceptToSum x = exceptToSum y)
      ⟨exceptToSum_inj x y, fun h => by rw [h]⟩

/-! ### Spec-side definitions (written from the words of spec.md, for the
refinement claims; to be compared with the source-derived definitions
above) -/

namespace Spec

/-- Fraction of values satisfying a predicate (division in ℚ; for an empty
value list the fraction is 0/0 = 0). -/
def fraction (vals : List String) (p : String → Bool) : ℚ :=
  (vals.countP p : ℚ) / (vals.length : ℚ)

/-- First name in an ordered candidate list whose fraction reaches the
threshold, defaulting to text. -/
def firstAtLeast (threshold : ℚ) : List (String × ℚ) → String
  | [] => "text"
  | (name, frac) :: rest =>
      if threshold ≤ frac then name else firstAtLeast threshold rest

/-- Spec 4.1 column type inference: over the non-empty values of a column,
the first of currency, percentage, date, numeric whose matching fraction is
at least 0.6, otherwise text. -/
def columnType (vals : List String) : String :=
  firstAtLeast ((3 : ℚ) / 5)
    [("currency", fraction vals TableAnalysis.hasCurrencySymbol),
     ("percentage", fraction vals TableAnalysis.hasPercentSign),
     ("date", fraction vals TableAnalysis.is_date_pattern),
     ("numeric", fraction vals TableAnalysis.isNumericValue)]

/-- Maximum of the second components, 0 for the empty list. -/
def maxSnd (l : List (String × Nat)) : Nat :=
  l.foldr (fun p a => Nat.max p.2 a) 0

/-- Spec 4.2 tie rule: the first entry attaining the maximum score when
that maximum is positive, otherwise data. -/
def firstMax (l : List (String × Nat)) : String :=
  if maxSnd l = 0 then "data"
  else ((l.find? (fun p => p.2 = maxSnd l)).getD ("data", 0)).1

/-- Spec 4.2 type classification: score the six fixed categories against
the lower-cased space-joined header text by counting keyword occurrences;
return the category with the highest non-zero score (first on ties), or
data when all scores are zero. -/
def sixCategoryType (headers : List String) : String :=
  let header_text := pyLower (pyJoin " " headers)
  firstMax (TableAnalysis.classificationCategories.map
    (fun p => (p.1, p.2.countP (fun kw => containsSub header_text kw))))

/-- Spec 4.2: a cell is empty when it has no non-whitespace character. -/
def cellEmpty (cell : String) : Bool := cell.toList.all pyIsSpace

/-- Spec 4.2: a cell is malformed when it exceeds 200 characters or
contains an embedded newline. -/
def cellMalformed (cell : String) : Bool :=
  200 < cell.length || cell.toList.contains '\n'

/-- Total number of cells of a grid. -/
def totalCells (grid : List (List String)) : Nat := (grid.map List.length).sum

/-- Spec 4.2 quality score: 1 minus (empty ratio times 0.4 plus malformed
ratio times 0.8), clamped to the unit interval. -/
def qualityScore (grid : List (List String)) : ℚ :=
  let total : ℚ := (totalCells grid : ℚ)
  let empty_ratio := ((grid.map (List.countP cellEmpty)).sum : ℚ) / total
  let malformed_ratio := ((grid.map (List.countP cellMalformed)).sum : ℚ) / total
  max 0 (min 1 (1 - (empty_ratio * ((2 : ℚ) / 5) + malformed_ratio * ((4 : ℚ) / 5))))

end Spec

/-! ### Concrete fixtures for the scenario evaluations and witnesses -/

/-- Byte-wise decoding; on ASCII byte strings this is exactly UTF-8
decoding with errors="ignore". -/
def asciiDecode (bs : List Nat) : String := ⟨bs.map Char.ofNat⟩

/-- The spec section 8 Scenario 1 generic text input: three lines with
runs of three or more spaces between the fields. -/
def scenario1Text : String :=
  "Name    Age    City\nAlice   30     NYC\nBob     25     LA"

/-- Scenario 1 as a byte string (pure ASCII, so the bytes are the
character codes). -/
def scenario1Bytes : List Nat := scenario1Text.toList.map Char.toNat

/-- A table of 15000 one-cell rows, the spec Scenario 3 input. -/
def bigTable : DocumentTable :=
  { table_index := 0
    rows := List.replicate 15000 ["x"]
    row_count := 15000
    column_count := 1 }

/-- A well-formed three-row table, for exercising the row-ceiling step with
a spec-modelled ceiling of 2. -/
def threeRowTable : DocumentTable :=
  { table_index := 0
    rows := [["a"], ["b"], ["c"]]
    row_count := 3
    column_count := 1 }

/-- A small valid one-row table. -/
def goodTable : DocumentTable :=
  { table_index := 0
    headers := some ["h"]
    rows := [["a"]]
    row_count := 1
    column_count := 1 }

/-- A parser whose parse raises, for exercising the orchestrator error
path. -/
def failParser : PyParser :=
  { parse := fun _ => .error (.other "unreadable file")
    count_pages := fun _ => .ok 1
    extract_tables := fun _ => .ok [] }

/-- A repository whose save always succeeds. -/
def okRepo : PyRepo :=
  { save_extracted_data := fun _ _ => .ok { id := 1, action := "saved" } }

/-- A ten-byte text document. -/
def sampleDoc : Document :=
  { content := [104, 105, 104, 105, 104, 105, 104, 105, 104, 105]
    filename := "a.txt" }

/-- A parser stub standing for an HTML parser that found goodTable. -/
def htmlStubParser : PyParser :=
  { parse := fun _ => .ok ("hello", false, "html_extraction")
    count_pages := fun _ => .ok 1
    extract_tables := fun _ => .ok [goodTable] }

/-- A ten-byte document with an html extension. -/
def htmlDoc : Document :=
  { content := [60, 116, 97, 98, 108, 101, 62, 60, 47, 62]
    filename := "t.html" }

/-- A parser map carrying only the html stub. -/
def stubMap : String → Option PyParser :=
  fun ext => if ext = ".html" then some htmlStubParser else none

/-! ## Theorems -/

/-! ### Helper lemmas about the orchestrator table stage -/

/-- The shipped configuration read fails: large_file is not a
ServiceConfig field. -/
theorem configLargeFileMaxStorageRows_fails :
    configLargeFileMaxStorageRows =
      .error (.attributeError "ServiceConfig object has no attribute large_file") := by
  decide

/-- Under the shipped configuration the table stage always yields the empty
dictionary list: an empty raw list stays empty, and a non-empty raw list
makes _limit_table_sizes read the missing config attribute and raise. -/
theorem tables_stage_shipped (raw : Except PyExc (List DocumentTable)) :
    tables_stage configLargeFileMaxStorageRows raw = [] := by
  cases raw with
  | error e => rfl
  | ok ts =>
      cases ts with
      | nil => rfl
      | cons t rest =>
          simp [tables_stage, limit_table_sizes, configLargeFileMaxStorageRows_fails]

/-- Every dictionary produced by the table stage has positive row and
column counts (the filter at services.py line 73). -/
theorem tables_stage_pos (maxRowsAttr : Except PyExc Nat)
    (raw : Except PyExc (List DocumentTable)) (d : TableDict)
    (hd : d ∈ tables_stage maxRowsAttr raw) :
    0 < d.row_count ∧ 0 < d.column_count := by
  rcases raw with e | ts
  · simp [tables_stage] at hd
  · simp only [tables_stage] at hd
    rcases hlim : limit_table_sizes maxRowsAttr ts with e | lim <;> rw [hlim] at hd
    · simp at hd
    · unfold build_table_dicts at hd
      rcases List.mem_map.mp hd with ⟨t, ht, rfl⟩
      have := List.of_mem_filter ht
      simp only [Bool.and_eq_true, decide_eq_true_eq] at this
      exact ⟨this.1, this.2⟩

/-! ### Claim theorems -/

/-- Claim C2: for every input document, extract_from_document returns an
ExtractedData whose table list is empty and whose table_count is 0; and
indeed, whenever the raw table list is non-empty, _limit_table_sizes reads
config.large_file.max_storage_rows, which does not exist on the
ServiceConfig dataclass, so an AttributeError is raised (and the
orchestrator's inner handler then resets tables to the empty list). -/
theorem c2_extraction_always_tableless :
    (∀ (fallback : PyParser) (parser_map : String → Option PyParser)
        (repo : PyRepo) (doc : Document),
      (extract_from_document configLargeFileMaxStorageRows fallback parser_map
          repo doc).tables = [] ∧
      (extract_from_document configLargeFileMaxStorageRows fallback parser_map
          repo doc).table_count = 0) ∧
    (∀ ts : List DocumentTable, ts ≠ [] →
      limit_table_sizes configLargeFileMaxStorageRows ts =
        .error (.attributeError "ServiceConfig object has no attribute large_file")) := by
  constructor
  · intro fallback parser_map repo doc
    unfold extract_from_document
    rcases hc : extract_core configLargeFileMaxStorageRows fallback parser_map repo doc
      with e | r
    · exact ⟨rfl, rfl⟩
    · simp only [extract_core] at hc
      split at hc
      · simp at hc
      · split at hc
        · simp at hc
        · split at hc
          · simp at hc
          · rw [Except.ok.injEq] at hc
            subst hc
            constructor
            · simp [pre_save_data]
            · simp [pre_save_data, tables_stage_shipped]
  · intro ts hts
    rcases ts with _ | ⟨t, rest⟩
    · exact absurd rfl hts
    · simp [limit_table_sizes, configLargeFileMaxStorageRows_fails]

/-- Witness for C2: a concrete non-empty table list on which the shipped
configuration read raises AttributeError inside _limit_table_sizes. -/
theorem c2_extraction_always_tableless_witness :
    [goodTable] ≠ ([] : List DocumentTable) ∧
    limit_table_sizes configLargeFileMaxStorageRows [goodTable] =
      .error (.attributeError "ServiceConfig object has no attribute large_file") :=
  ⟨by decide, c2_extraction_always_tableless.2 [goodTable] (by decide)⟩

/-- Claim C3 (code bug): a table with 15000 rows is NOT present in the
orchestrator's table stage at all.  The _limit_table_sizes step reads the
missing config.large_file attribute, raises AttributeError, and the inner
handler drops every table, so no truncation metadata is ever produced. -/
theorem c3_row_ceiling_never_applies :
    bigTable.rows.length = 15000 ∧
    limit_table_sizes configLargeFileMaxStorageRows [bigTable] =
      .error (.attributeError "ServiceConfig object has no attribute large_file") ∧
    tables_stage configLargeFileMaxStorageRows (.ok [bigTable]) = [] := by
  refine ⟨?_, ?_, tables_stage_shipped _⟩
  · rw [show bigTable.rows = List.replicate 15000 ["x"] from rfl, List.length_replicate]
  · unfold limit_table_sizes
    rw [configLargeFileMaxStorageRows_fails]
    rfl

/-- Claim C1 (code bug): when the storage row-ceiling step is run with a
working ceiling (spec-modelled, ceiling 2), a table of 3 rows reaches the
orchestrator's kept-dictionary list with its rows cut to 2 but its
row_count still 3, violating row_count = len(rows). -/
theorem c1_row_ceiling_breaks_row_count_invariant :
    (tables_stage (specStorageRowCeiling 2) (.ok [threeRowTable])).map
      (fun d => (d.row_count, d.rows.length)) = [(3, 2)] := by
  decide

/-- Claim C6: an exception raised while parsing, counting pages or
persisting is never propagated: extract_from_document returns the degraded
result, whose processing_method is error, whose table list is empty, whose
table_count is 0 and whose full_text is the explanatory message built from
the exception. -/
theorem c6_failures_degrade_to_error_result (maxRowsAttr : Except PyExc Nat)
    (fallback : PyParser) (parser_map : String → Option PyParser)
    (repo : PyRepo) (doc : Document) :
    (∀ e, (chooseParser fallback parser_map (resolve_ext doc)).parse doc.content =
        .error e →
      extract_from_document maxRowsAttr fallback parser_map repo doc =
        error_result e) ∧
    (∀ e ft ocr m,
      (chooseParser fallback parser_map (resolve_ext doc)).parse doc.content =
        .ok (ft, ocr, m) →
      (chooseParser fallback parser_map (resolve_ext doc)).count_pages doc.content =
        .error e →
      extract_from_document maxRowsAttr fallback parser_map repo doc =
        error_result e) ∧
    (∀ e ft ocr m n,
      (chooseParser fallback parser_map (resolve_ext doc)).parse doc.content =
        .ok (ft, ocr, m) →
      (chooseParser fallback parser_map (resolve_ext doc)).count_pages doc.content =
        .ok n →
      repo.save_extracted_data doc
          (pre_save_data maxRowsAttr (chooseParser fallback parser_map (resolve_ext doc))
            doc (resolve_ext doc) ft ocr m n) = .error e →
      extract_from_document maxRowsAttr fallback parser_map repo doc =
        error_result e) ∧
    (∀ e, (error_result e).processing_method = some "error" ∧
      (error_result e).tables = [] ∧ (error_result e).table_count = 0 ∧
      (error_result e).full_text = "Error processing document: " ++ pyStr e) := by
  refine ⟨?_, ?_, ?_, ?_⟩
  · intro e hp
    simp [extract_from_document, extract_core, hp]
  · intro e ft ocr m hp hn
    simp [extract_from_document, extract_core, hp, hn]
  · intro e ft ocr m n hp hn hs
    simp [extract_from_document, extract_core, hp, hn, hs]
  · intro e
    exact ⟨rfl, rfl, rfl, rfl⟩

/-- Witness for C6: a concrete document whose parser raises, yielding the
degraded error result. -/
theorem c6_failures_degrade_to_error_result_witness :
    (chooseParser failParser (fun _ => some failParser) (resolve_ext sampleDoc)).parse
        sampleDoc.content = .error (.other "unreadable file") ∧
    extract_from_document configLargeFileMaxStorageRows failParser
        (fun _ => some failParser) okRepo sampleDoc =
      error_result (.other "unreadable file") :=
  ⟨by decide,
    (c6_failures_degrade_to_error_result configLargeFileMaxStorageRows failParser
      (fun _ => some failParser) okRepo sampleDoc).1 (.other "unreadable file")
      (by decide)⟩

/-- Claim C7: every table dictionary in the orchestrator's final result has
positive row and column counts (zero-row or zero-column tables are
filtered out), and an HTML table element with a single tr (header cells
but no data rows) yields no DocumentTable at all. -/
theorem c7_empty_tables_discarded :
    (∀ (maxRowsAttr : Except PyExc Nat) (fallback : PyParser)
        (parser_map : String → Option PyParser) (repo : PyRepo) (doc : Document)
        (d : TableDict),
      d ∈ (extract_from_document maxRowsAttr fallback parser_map repo doc).raw_tables →
      0 < d.row_count ∧ 0 < d.column_count) ∧
    (∀ (context : String × String × String) (first_row : List Html.HtmlCell)
        (idx : Nat),
      Html.extract_table_data context [first_row] idx = none) := by
  constructor
  · intro maxRowsAttr fallback parser_map repo doc d hd
    unfold extract_from_document at hd
    rcases hc : extract_core maxRowsAttr fallback parser_map repo doc with e | r <;>
      rw [hc] at hd
    · simp [error_result] at hd
    · simp only [extract_core] at hc
      split at hc
      · simp at hc
      · split at hc
        · simp at hc
        · split at hc
          · simp at hc
          · rw [Except.ok.injEq] at hc
            subst hc
            simp only [pre_save_data] at hd
            split at hd
            · exact tables_stage_pos _ _ _ hd
            · simp at hd
  · intro context first_row idx
    unfold Html.extract_table_data
    by_cases hth : (first_row.filter (fun c => c.tag = .th)).isEmpty
    · by_cases hfr : first_row.isEmpty
      · have : first_row = [] := List.isEmpty_iff.mp hfr
        subst this
        simp
      · simp [hth, hfr]
    · simp [hth]

/-- Witness for C7: a concrete pipeline run (html extension, stub parser
returning one valid table, spec-modelled ceiling 100) whose resulting
dictionary is in the result and has positive counts. -/
theorem c7_empty_tables_discarded_witness :
    to_table_dict (limit_one_table 100 goodTable) ∈
      (extract_from_document (specStorageRowCeiling 100)
        (GenericText.asParser asciiDecode) stubMap okRepo htmlDoc).raw_tables ∧
    (0 < (to_table_dict (limit_one_table 100 goodTable)).row_count ∧
      0 < (to_table_dict (limit_one_table 100 goodTable)).column_count) :=
  ⟨by decide,
    c7_empty_tables_discarded.1 (specStorageRowCeiling 100)
      (GenericText.asParser asciiDecode) stubMap okRepo htmlDoc
      (to_table_dict (limit_one_table 100 goodTable)) (by decide)⟩

/-- The try body of _parse_generic_table never produces a table: every
successful exit is an early None return, and the path that would build the
table dies on the missing _create_table_html attribute. -/
theorem parse_generic_table_body_no_table (table_lines : List String) :
    ∀ t, GenericText.parse_generic_table_body table_lines ≠ .ok (some t) := by
  intro t h
  simp only [GenericText.parse_generic_table_body] at h
  split at h
  · simp at h
  · split at h
    · simp at h
    · split at h
      · simp at h
      · split at h
        · simp at h
        · simp at h

/-- _parse_generic_table never returns a table: the body either returns
None or raises, and the except handler turns the AttributeError into a
NameError (the undefined name logger) or returns None. -/
theorem parse_generic_table_no_table (table_lines : List String) (i : Nat) :
    ∀ t, GenericText.parse_generic_table table_lines i ≠ .ok (some t) := by
  intro t h
  unfold GenericText.parse_generic_table at h
  split at h
  · simp at h
  · split at h
    · rename_i v hv
      rw [Except.ok.injEq] at h
      subst h
      exact parse_generic_table_body_no_table table_lines t hv
    · split at h <;> simp at h

/-- The extract_tables loop started with an empty accumulator either
raises or finishes with an empty table list. -/
theorem extract_loop_nil (lines : List String) :
    ∀ (table_lines : List String) (i : Nat) (b : Bool),
      GenericText.extract_loop lines [] table_lines i b = .ok [] ∨
      ∃ e, GenericText.extract_loop lines [] table_lines i b = .error e := by
  induction lines with
  | nil =>
      intro table_lines i b
      simp only [GenericText.extract_loop]
      split
      · rcases hp : GenericText.parse_generic_table table_lines i with e | v
        · exact .inr ⟨e, rfl⟩
        · rcases v with _ | t
          · exact .inl rfl
          · exact absurd hp (parse_generic_table_no_table table_lines i t)
      · exact .inl rfl
  | cons line rest ih =>
      intro table_lines i b
      simp only [GenericText.extract_loop]
      split
      · exact ih _ i true
      · split
        · rcases hp : GenericText.parse_generic_table table_lines i with e | v
          · exact .inr ⟨e, rfl⟩
          · rcases v with _ | t
            · exact ih [] i false
            · exact absurd hp (parse_generic_table_no_table table_lines i t)
        · exact ih [] i false

/-- Claim C5: for every byte input (and whatever the decode capability
returns), GenericTextParser.extract_tables returns the empty list: any
candidate block that survives validation raises on the undefined helper
methods, the handler raises NameError on the undefined name logger, and
the outer handler returns the empty list. -/
theorem c5_generic_extract_tables_always_empty
    (decode : List Nat → String) (content : List Nat) :
    GenericText.extract_tables decode content = [] := by
  unfold GenericText.extract_tables
  split
  · rfl
  · rcases extract_loop_nil (pySplitChar (decode content) '\n') [] 0 false with h | ⟨e, h⟩ <;>
      rw [h]

/-- Claim C4 (code bug): on the spec Scenario 1 generic text input, the
candidate block is found and parsed, but _parse_generic_table raises (the
undefined _create_table_html helper, then the undefined name logger in the
handler), so extract_tables returns no table at all instead of the one
claimed table. -/
theorem c4_scenario1_yields_no_table :
    GenericText.extract_tables asciiDecode scenario1Bytes = [] ∧
    GenericText.parse_rows_by_separator
        ["Name    Age    City", "Alice   30     NYC", "Bob     25     LA"] .space =
      [["Name", "Age", "City"], ["Alice", "30", "NYC"], ["Bob", "25", "LA"]] ∧
    GenericText.separate_headers_and_data
        [["Name", "Age", "City"], ["Alice", "30", "NYC"], ["Bob", "25", "LA"]] =
      (some ["Name", "Age", "City"], [["Alice", "30", "NYC"], ["Bob", "25", "LA"]]) ∧
    GenericText.parse_generic_table
        ["Name    Age    City", "Alice   30     NYC", "Bob     25     LA"] 0 =
      .error (.nameError "name logger is not defined") := by
  refine ⟨?_, ?_, ?_, ?_⟩ <;> decide

/-- The float threshold comparison of _detect_column_types, exactly: for a
positive total, 0.6 at most count/total is 3*total at most 5*count. -/
theorem ratio_threshold_iff (cnt total : Nat) (h : 0 < total) :
    ((3 : ℚ) / 5 ≤ (cnt : ℚ) / (total : ℚ)) ↔ 3 * total ≤ 5 * cnt := by
  rw [div_le_div_iff₀ (by norm_num) (by exact_mod_cast h), mul_comm ((cnt : ℚ)) 5]
  exact_mod_cast Iff.rfl

/-- The spec-side column type of an empty value list is text (all four
fractions are 0). -/
theorem columnType_nil : Spec.columnType [] = "text" := by
  norm_num [Spec.columnType, Spec.firstAtLeast, Spec.fraction]

/-- The spec-side column type agrees with the source if-chain on every
value list. -/
theorem columnType_eq_code (vals : List String) :
    Spec.columnType vals =
      (if vals.isEmpty then "text"
       else
        let total := vals.length
        if 3 * total ≤ 5 * vals.countP TableAnalysis.hasCurrencySymbol then "currency"
        else if 3 * total ≤ 5 * vals.countP TableAnalysis.hasPercentSign then "percentage"
        else if 3 * total ≤ 5 * vals.countP TableAnalysis.is_date_pattern then "date"
        else if 3 * total ≤ 5 * vals.countP TableAnalysis.isNumericValue then "numeric"
        else "text") := by
  rcases vals with _ | ⟨v, vs⟩
  · exact columnType_nil
  · have hpos : 0 < (v :: vs).length := Nat.succ_pos _
    simp only [Spec.columnType, Spec.firstAtLeast, Spec.fraction,
      ratio_threshold_iff _ _ hpos, List.isEmpty_cons, Bool.false_eq_true, if_false]

/-- Claim C8: column type inference assigns, per column, the first type in
the order currency, percentage, date, numeric whose fraction of matching
non-empty values is at least 0.6, otherwise text; in particular the column
with values 10%, 25%, 5%, abc is classified percentage. -/
theorem c8_column_type_inference :
    (∀ (rows : List (List String)) (headers : List String),
      TableAnalysis.detect_column_types rows headers =
        (List.range headers.length).map
          (fun i => Spec.columnType (TableAnalysis.column_values rows i))) ∧
    TableAnalysis.detect_column_types [["10%"], ["25%"], ["5%"], ["abc"]] ["v"] =
      ["percentage"] := by
  constructor
  · intro rows headers
    unfold TableAnalysis.detect_column_types
    split
    · rename_i hrows
      have hr : rows = [] := by simpa using hrows
      subst hr
      simp [show ∀ i, TableAnalysis.column_values [] i = [] from fun _ => rfl,
        columnType_nil, List.map_const]
    · refine congrArg (fun f => List.map f _) (funext fun i => ?_)
      exact (columnType_eq_code (TableAnalysis.column_values rows i)).symm
  · decide

/-- Unfolding of the maximum score on a cons cell. -/
theorem maxSnd_cons (p : String × Nat) (l : List (String × Nat)) :
    Spec.maxSnd (p :: l) = max p.2 (Spec.maxSnd l) := rfl

/-- Filtering out zero scores does not change the maximum score. -/
theorem maxSnd_filter (l : List (String × Nat)) :
    Spec.maxSnd (l.filter (fun p => 0 < p.2)) = Spec.maxSnd l := by
  induction l with
  | nil => rfl
  | cons p t ih =>
      by_cases hp : 0 < p.2
      · rw [List.filter_cons_of_pos (by simpa using hp), maxSnd_cons, maxSnd_cons, ih]
      · have hz : p.2 = 0 := by omega
        rw [List.filter_cons_of_neg (by simpa using hp), maxSnd_cons, ih, hz]
        omega

/-- For a positive target score, searching the zero-filtered list finds
the same entry as searching the full list. -/
theorem find_filter_pos (l : List (String × Nat)) (m : Nat) (hm : 0 < m) :
    (l.filter (fun p => 0 < p.2)).find? (fun p => p.2 = m) =
      l.find? (fun p => p.2 = m) := by
  induction l with
  | nil => rfl
  | cons p t ih =>
      by_cases hp : 0 < p.2
      · by_cases hpm : p.2 = m
        · rw [List.filter_cons_of_pos (by simpa using hp),
            List.find?_cons_of_pos _ (by simpa using hpm),
            List.find?_cons_of_pos _ (by simpa using hpm)]
        · rw [List.filter_cons_of_pos (by simpa using hp),
            List.find?_cons_of_neg _ (by simpa using hpm),
            List.find?_cons_of_neg _ (by simpa using hpm), ih]
      · have hpm : ¬ p.2 = m := by omega
        rw [List.filter_cons_of_neg (by simpa using hp), ih,
          List.find?_cons_of_neg _ (by simpa using hpm)]

/-- A positive maximum score is attained: find? succeeds. -/
theorem maxSnd_attained (l : List (String × Nat)) (h : 0 < Spec.maxSnd l) :
    ∃ y, l.find? (fun p => p.2 = Spec.maxSnd l) = some y := by
  induction l with
  | nil => simp [Spec.maxSnd] at h
  | cons p t ih =>
      by_cases hpm : p.2 = Spec.maxSnd (p :: t)
      · exact ⟨p, List.find?_cons_of_pos _ (by simpa using hpm)⟩
      · have hmax : Spec.maxSnd (p :: t) = Spec.maxSnd t := by
          rw [maxSnd_cons] at hpm ⊢
          omega
        have ht : 0 < Spec.maxSnd t := by rw [← hmax]; exact h
        rcases ih ht with ⟨y, hy⟩
        refine ⟨y, ?_⟩
        rw [List.find?_cons_of_neg _ (by simpa using hpm), hmax]
        exact hy

/-- Python max over dict entries in insertion order: the fold keeps the
first entry whose score no later entry strictly exceeds. -/
theorem pyMaxBySnd_spec (xs : List (String × Nat)) :
    ∀ x, TableAnalysis.pyMaxBySnd x xs =
      if Spec.maxSnd xs ≤ x.2 then x
      else (xs.find? (fun q => q.2 = Spec.maxSnd xs)).getD x := by
  induction xs with
  | nil =>
      intro x
      simp [TableAnalysis.pyMaxBySnd, Spec.maxSnd]
  | cons q rest ih =>
      intro x
      have hstep : TableAnalysis.pyMaxBySnd x (q :: rest) =
          TableAnalysis.pyMaxBySnd (if x.2 < q.2 then q else x) rest := by
        simp [TableAnalysis.pyMaxBySnd, List.foldl_cons]
      by_cases hxq : x.2 < q.2
      · rw [hstep, if_pos hxq, ih q]
        have hcond : ¬ Spec.maxSnd (q :: rest) ≤ x.2 := by rw [maxSnd_cons]; omega
        rw [if_neg hcond]
        by_cases hqr : Spec.maxSnd rest ≤ q.2
        · rw [if_pos hqr]
          have hqM : q.2 = Spec.maxSnd (q :: rest) := by rw [maxSnd_cons]; omega
          rw [List.find?_cons_of_pos _ (by simpa using hqM)]
          rfl
        · rw [if_neg hqr]
          have hMr : Spec.maxSnd (q :: rest) = Spec.maxSnd rest := by
            rw [maxSnd_cons]; omega
          have hqM : ¬ q.2 = Spec.maxSnd (q :: rest) := by rw [hMr]; omega
          rw [List.find?_cons_of_neg _ (by simpa using hqM), hMr]
          rcases maxSnd_attained rest (by omega) with ⟨y, hy⟩
          rw [hy]
          rfl
      · rw [hstep, if_neg hxq, ih x]
        by_cases hrx : Spec.maxSnd rest ≤ x.2
        · rw [if_pos hrx]
          have : Spec.maxSnd (q :: rest) ≤ x.2 := by rw [maxSnd_cons]; omega
          rw [if_pos this]
        · rw [if_neg hrx]
          have hcond : ¬ Spec.maxSnd (q :: rest) ≤ x.2 := by rw [maxSnd_cons]; omega
          rw [if_neg hcond]
          have hMr : Spec.maxSnd (q :: rest) = Spec.maxSnd rest := by
            rw [maxSnd_cons]; omega
          have hqM : ¬ q.2 = Spec.maxSnd (q :: rest) := by rw [hMr]; omega
          rw [List.find?_cons_of_neg _ (by simpa using hqM), hMr]

/-- The source argmax (filter positives, Python max over insertion order)
equals the spec description (first entry attaining the positive maximum,
else data). -/
theorem argmax_eq (l : List (String × Nat)) :
    (match l.filter (fun p => 0 < p.2) with
     | [] => "data"
     | x :: xs => (TableAnalysis.pyMaxBySnd x xs).1) = Spec.firstMax l := by
  rcases hF : l.filter (fun p => 0 < p.2) with _ | ⟨x, xs⟩
  · rw [hF]
    have h0 : Spec.maxSnd l = 0 := by rw [← maxSnd_filter l, hF]; rfl
    simp [Spec.firstMax, h0]
  · rw [hF]
    have hxpos : 0 < x.2 := by
      have hx : x ∈ l.filter (fun p => 0 < p.2) := by
        rw [hF]
        exact List.mem_cons_self _ _
      simpa using List.of_mem_filter hx
    have hMx : Spec.maxSnd l = Spec.maxSnd (x :: xs) := by rw [← maxSnd_filter l, hF]
    have hMpos : 0 < Spec.maxSnd l := by rw [hMx, maxSnd_cons]; omega
    have hfind : l.find? (fun p => p.2 = Spec.maxSnd l) =
        (x :: xs).find? (fun p => p.2 = Spec.maxSnd l) := by
      rw [← find_filter_pos l _ hMpos, hF]
    show (TableAnalysis.pyMaxBySnd x xs).1 = Spec.firstMax l
    rw [pyMaxBySnd_spec xs x]
    unfold Spec.firstMax
    rw [if_neg (by omega : ¬ Spec.maxSnd l = 0), hfind]
    by_cases hcase : Spec.maxSnd xs ≤ x.2
    · rw [if_pos hcase]
      have hxM : x.2 = Spec.maxSnd l := by rw [hMx, maxSnd_cons]; omega
      rw [List.find?_cons_of_pos _ (by simpa using hxM)]
      rfl
    · rw [if_neg hcase]
      have hMr : Spec.maxSnd l = Spec.maxSnd xs := by rw [hMx, maxSnd_cons]; omega
      have hxM : ¬ x.2 = Spec.maxSnd l := by rw [hMr]; omega
      rw [List.find?_cons_of_neg _ (by simpa using hxM), hMr]
      rcases maxSnd_attained xs (by omega) with ⟨y, hy⟩
      rw [hy]
      rfl

/-- Counterexample to claim C9: at headers ["Status"], the HTML parser's
classifier returns status, while the six-category scoring scheme the claim
describes (and the PDF and DOCX classifiers implement) returns data. -/
theorem c9_html_classifier_counterexample :
    Html.classify_table_type ["Status"] [] = "status" ∧
    Spec.sixCategoryType ["Status"] = "data" ∧
    TableAnalysis.classify_table_type ["Status"] [] = "data" := by
  refine ⟨by decide, by decide, by decide⟩

/-- Claim C9 (amended): the PDF and DOCX table-type classifiers implement
exactly the six-category keyword-count scheme with first-of-max tie
breaking and data fallback; the HTML parser's classifier does not follow
that scheme. -/
theorem c9_six_category_classification :
    (∀ (headers : List String) (rows : List (List String)),
      TableAnalysis.classify_table_type headers rows =
        Spec.sixCategoryType headers) ∧
    (Html.classify_table_type ["Status"] [] ==
      Spec.sixCategoryType ["Status"]) = false := by
  refine ⟨?_, by decide⟩
  intro headers rows
  unfold TableAnalysis.classify_table_type Spec.sixCategoryType
  exact argmax_eq _

/-- Python strip yields the empty string exactly when every character is
whitespace. -/
theorem pyStripList_eq_nil_iff (cs : List Char) :
    pyStripList cs = [] ↔ ∀ c ∈ cs, pyIsSpace c := by
  unfold pyStripList
  rw [List.reverse_eq_nil_iff, List.dropWhile_eq_nil_iff]
  constructor
  · intro h c hc
    rw [← List.takeWhile_append_dropWhile (p := pyIsSpace) (l := cs),
      List.mem_append] at hc
    rcases hc with hc | hc
    · exact List.mem_takeWhile_imp hc
    · exact h c (List.mem_reverse.mpr hc)
  · intro h c hc
    exact h c ((List.dropWhile_sublist _).subset (List.mem_reverse.mp hc))

/-- The source empty-cell test (stripped cell is empty) agrees with the
spec wording (no non-whitespace character). -/
theorem strip_empty_eq_cellEmpty (cell : String) :
    (pyStrip cell).isEmpty = Spec.cellEmpty cell := by
  rw [Bool.eq_iff_iff]
  unfold pyStrip Spec.cellEmpty
  rw [String.isEmpty_iff, List.all_eq_true]
  constructor
  · intro h
    have : pyStripList cell.toList = [] := by
      have := congrArg String.toList h
      simpa using this
    intro c hc
    exact (pyStripList_eq_nil_iff _).mp this c hc
  · intro h
    have h2 : pyStripList cell.toList = [] := (pyStripList_eq_nil_iff _).mpr h
    rw [show (⟨pyStripList cell.toList⟩ : String) = "" from by rw [h2]]

/-- Claim C10: for a non-empty grid the quality assessment returns exactly
1 minus (empty ratio times 0.4 plus malformed ratio times 0.8) clamped to
the unit interval, with the spec's empty and malformed cell definitions;
for the empty grid it returns 0. -/
theorem c10_quality_score :
    (∀ grid : List (List String), grid ≠ [] →
      TableAnalysis.assess_table_quality grid = Spec.qualityScore grid) ∧
    TableAnalysis.assess_table_quality [] = 0 := by
  constructor
  · intro grid hgrid
    unfold TableAnalysis.assess_table_quality Spec.qualityScore
    rw [if_neg (by simpa using hgrid)]
    have hfun : (fun cell => (pyStrip cell).isEmpty) = Spec.cellEmpty :=
      funext fun cell => strip_empty_eq_cellEmpty cell
    have hmal : (fun cell : String => 200 < cell.length || cell.toList.contains '\n') =
        Spec.cellMalformed := rfl
    rw [hfun, hmal]
    by_cases htot : 0 < (grid.map List.length).sum
    · simp only [if_pos htot, Spec.totalCells]
      push_cast
      simp [List.map_map, Function.comp_def]
    · have hz : (grid.map List.length).sum = 0 := by omega
      simp [Spec.totalCells, hz]
  · rfl

/-- Witness for C10: a concrete non-empty grid on which the assessment
equals the spec formula. -/
theorem c10_quality_score_witness :
    ([[""]] ≠ ([] : List (List String))) ∧
    TableAnalysis.assess_table_quality [[""]] = Spec.qualityScore [[""]] :=
  ⟨by decide, c10_quality_score.1 [[""]] (by decide)⟩
